import Mathlib

/-!
# Plugin control: admission, subscriptions and the publisher proxy

A shallow embedding of `control/control.go` and `control/plugin/publisher_proxy.go`.

* Go values of type `error` are `Option GoError` (`none` is the nil error).
* Calls that leave the embedded functions (the logger, the process launcher, the
  event controller, the subscription table, the plugin behind a proxy) are
  recorded, in program order, in a trace of `Effect`s.
* The results of the process launcher are supplied by an `Env` of oracles, so that
  every theorem quantifies over every behaviour of the launcher.
-/

namespace control

/-! ## Errors -/

/-- A Go `error` value.  `errorsNew s` is the value built by `errors.New(s)`;
`foreign tag s` is any error value built elsewhere whose `Error()` is `s`. -/
inductive GoError where
  | errorsNew (msg : String)
  | foreign (tag : Nat) (msg : String)
  deriving DecidableEq, Repr

/-- The `Error()` method. -/
def GoError.Error : GoError → String
  | .errorsNew msg => msg
  | .foreign _ msg => msg

/-! ## The `plugin` package types used by `control.go` -/

/-- Modelled from the spec: `plugin.PluginResponseState` is declared outside the
embedded files; the spec calls it a success/failure indicator.  `PluginSuccess` is
the constant `Load` compares against, every other value is `other code`. -/
inductive PluginResponseState where
  | PluginSuccess
  | other (code : Nat)
  deriving DecidableEq, Repr

/-- Modelled from the spec: `plugin.PluginType` is declared outside the embedded
files; the spec lists the categories collector, publisher and processor. -/
inductive PluginType where
  | collector
  | publisher
  | processor
  deriving DecidableEq, Repr, Inhabited

/-- Modelled from the spec: `plugin.PluginMeta` is declared outside the embedded
files; the spec describes it as the plugin-declared name, version and capability
set.  `Load` only copies it. -/
structure PluginMeta where
  Name : String
  Version : Int
  Capabilities : List String
  deriving DecidableEq, Repr, Inhabited

/-- Modelled from the spec: the handshake response `plugin.Response`, with the five
fields of the handshake response contract (all of them read by `Load`). -/
structure Response where
  State : PluginResponseState
  ErrorMessage : String
  Meta : PluginMeta
  Typ : PluginType
  Token : String
  deriving DecidableEq, Repr

/-- A handle on a `plugin.ExecutablePlugin`; the launcher decides what it denotes. -/
abbrev ExecutablePlugin := Nat

/-- A point in time (`time.Time`) and a span (`time.Duration`), in nanoseconds. -/
abbrev Time := Nat

/-- The constant `time.Second`. -/
def time_Second : Nat := 1000000000

/-! ## `control.go`: data model -/

/-- The type `pluginState` (a Go string). -/
abbrev pluginState := String

def DetectedState : pluginState := "detected"
def LoadingState : pluginState := "loading"
def LoadedState : pluginState := "loaded"
def UnloadedState : pluginState := "unloaded"

/-- Represents a plugin loaded or loading into control. -/
structure LoadedPlugin where
  Meta : PluginMeta
  Path : String
  Typ : PluginType
  State : pluginState
  Token : String
  LoadedTime : Time
  deriving DecidableEq, Repr

/-- The record built by `new(LoadedPlugin)`: every field holds its zero value. -/
def LoadedPlugin.new : LoadedPlugin :=
  { Meta := { Name := "", Version := 0, Capabilities := [] }
    Path := ""
    Typ := PluginType.collector
    State := ""
    Token := ""
    LoadedTime := 0 }

/-- Modelled from the spec: the type `subscriptions` is declared outside the embedded
files.  The spec describes a mapping from a metric key to an integer count; the
mapping is an association list in which the first entry for a key is the live one. -/
structure subscriptions where
  table : List (String × Int)
  deriving DecidableEq, Repr

/-- Modelled from the spec: `Init` builds the registry with no entry. -/
def subscriptions.Init : subscriptions := { table := [] }

/-- The count stored for a key, if the key has an entry. -/
def subscriptions.count (s : subscriptions) (key : String) : Option Int :=
  s.table.lookup key

/-- Modelled from the spec: `Subscribe(key) → newCount` increments the count of the
key, creating the entry at 1 if it is absent, and always succeeds. -/
def subscriptions.Subscribe (s : subscriptions) (key : String) : subscriptions × Int :=
  match s.count key with
  | none => ({ table := (key, 1) :: s.table }, 1)
  | some c => ({ table := (key, c + 1) :: s.table }, c + 1)

/-- Modelled from the spec: `Unsubscribe(key) → (newCount, error)` decrements an
existing entry and fails if the entry is absent or already at 0.  The spec fixes
neither the error value nor the count returned next to it, so the error built for a
key is the parameter `underflow` and a failure carries no count. -/
def subscriptions.Unsubscribe (underflow : String → GoError) (s : subscriptions)
    (key : String) : subscriptions × Except GoError Int :=
  match s.count key with
  | none => (s, .error (underflow key))
  | some c =>
    if c = 0 then (s, .error (underflow key))
    else ({ table := (key, c - 1) :: s.table }, .ok (c - 1))

/-- The registry invariant of the spec: no stored count is negative. -/
def subscriptions.Valid (s : subscriptions) : Prop :=
  ∀ key c, s.count key = some c → 0 ≤ c

/-- The struct `pluginControl`.  The field `eventManager` is left out: the event
controller is an external object and each `Emit` on it is recorded in the trace. -/
structure pluginControl where
  LoadedPlugins : List LoadedPlugin
  RunningPlugins : List ExecutablePlugin
  Started : Bool
  controlPrivKey : Option Nat
  controlPubKey : Option Nat
  subscriptions : subscriptions
  deriving DecidableEq, Repr

/-- The events of package `control_event` built by `control.go`. -/
inductive Event where
  | MetricSubscriptionEvent (MetricNamespace : List String) (Count : Int)
  | MetricUnsubscriptionEvent (MetricNamespace : List String) (Count : Int)
  deriving DecidableEq, Repr

/-- What the embedded functions do to the world outside them, in program order. -/
inductive Effect where
  /-- A call of `log.Printf` or `log.Println`, with the text handed to the logger. -/
  | log (text : String)
  /-- An assignment to the field `State` of the record under construction in `Load`. -/
  | setState (s : pluginState)
  /-- The call `plugin.NewExecutablePlugin(p, path, daemon)`. -/
  | NewExecutablePlugin (path : String) (daemon : Bool)
  /-- The call `ePlugin.Start()`. -/
  | Start (ePlugin : ExecutablePlugin)
  /-- The call `plugin.WaitForResponse(ePlugin, timeout)`. -/
  | WaitForResponse (ePlugin : ExecutablePlugin) (timeout : Nat)
  /-- The call `p.subscriptions.Subscribe(key)`. -/
  | Subscribe (key : String)
  /-- The call `p.subscriptions.Unsubscribe(key)`. -/
  | Unsubscribe (key : String)
  /-- The call `p.eventManager.Emit(e)`. -/
  | Emit (e : Event)
  deriving DecidableEq, Repr

/-- The process launcher of package `plugin`, which is outside the embedded files:
what each of its three entry points answers, and the clock read by `time.Now()`.
A Go result `(x, err)` is a pair whose second component is `none` for a nil error;
a nil `*plugin.Response` is `none`. -/
structure Env where
  NewExecutablePlugin : pluginControl → String → Bool → ExecutablePlugin × Option GoError
  Start : ExecutablePlugin → Option GoError
  WaitForResponse : ExecutablePlugin → Nat → Option Response × Option GoError
  Now : Time

/-- How a call ends: it returns its two results, or it panics. -/
inductive Outcome where
  | returned (plugin : Option LoadedPlugin) (err : Option GoError)
  | panicked (msg : String)
  deriving DecidableEq, Repr

/-- A finished call of `Load`: how it ended, the control afterwards and the effects. -/
structure LoadResult where
  outcome : Outcome
  control : pluginControl
  trace : List Effect
  deriving DecidableEq, Repr

/-! ## `control.go`: operations -/

/-- The constructor `Control()`. -/
def Control : pluginControl :=
  { LoadedPlugins := []
    RunningPlugins := []
    Started := false
    controlPrivKey := none
    controlPubKey := none
    subscriptions := subscriptions.Init }

/-- The method `Start`. -/
def pluginControl.Start (p : pluginControl) : pluginControl :=
  { p with Started := true }

/-- The method `Stop`. -/
def pluginControl.Stop (p : pluginControl) : pluginControl :=
  { p with Started := false }

/-- The method `Load`. -/
def pluginControl.Load (env : Env) (p : pluginControl) (path : String) : LoadResult :=
  if !p.Started then
    { outcome := .returned none
        (some (.errorsNew "Must start plugin control before calling Load()"))
      control := p
      trace := [] }
  else
    let t0 := [Effect.log ("Attempting to load: " ++ path ++ "\x0b")]
    let lPlugin := LoadedPlugin.new
    let lPlugin := { lPlugin with Path := path }
    let lPlugin := { lPlugin with State := DetectedState }
    let t1 := t0 ++ [Effect.setState DetectedState]
    -- Create a new Executable plugin
    let t2 := t1 ++ [Effect.NewExecutablePlugin lPlugin.Path false]
    match env.NewExecutablePlugin p lPlugin.Path false with
    | (_, some err) =>
      { outcome := .returned none (some err)
        control := p
        trace := t2 ++ [Effect.log (err.Error ++ "\n")] }
    | (ePlugin, none) =>
      -- Start the plugin using the start method
      let t3 := t2 ++ [Effect.Start ePlugin]
      match env.Start ePlugin with
      | some err =>
        { outcome := .returned none (some err)
          control := p
          trace := t3 ++ [Effect.log (err.Error ++ "\n")] }
      | none =>
        -- This blocks until a response or an error
        let t4 := t3 ++ [Effect.WaitForResponse ePlugin (time_Second * 3)]
        match env.WaitForResponse ePlugin (time_Second * 3) with
        | (_, some err) =>
          { outcome := .returned none (some err)
            control := p
            trace := t4 ++ [Effect.log (err.Error ++ "\n")] }
        | (none, none) =>
          { outcome := .panicked "invalid memory address or nil pointer dereference"
            control := p
            trace := t4 }
        | (some resp, none) =>
          if resp.State ≠ PluginResponseState.PluginSuccess then
            { outcome := .returned none
                (some (.errorsNew
                  ("Plugin loading did not succeed: " ++ resp.ErrorMessage ++ "\n")))
              control := p
              trace := t4 ++
                [Effect.log ("Plugin loading did not succeed: " ++ resp.ErrorMessage ++ "\n")] }
          else
            let lPlugin := { lPlugin with Meta := resp.Meta }
            let lPlugin := { lPlugin with Typ := resp.Typ }
            let lPlugin := { lPlugin with Token := resp.Token }
            let lPlugin := { lPlugin with LoadedTime := env.Now }
            let lPlugin := { lPlugin with State := LoadedState }
            let t5 := t4 ++ [Effect.setState LoadedState]
            { outcome := .returned (some lPlugin) none
              control := { p with LoadedPlugins := p.LoadedPlugins ++ [lPlugin] }
              trace := t5 }

/-- The function `strings.Join` of the Go standard library. -/
def strings_Join : List String → String → String
  | [], _ => ""
  | [a], _ => a
  | a :: b :: rest, sep => a ++ sep ++ strings_Join (b :: rest) sep

/-- The function `getMetricKey`. -/
def getMetricKey (metric : List String) : String :=
  strings_Join metric "."

/-- The method `SubscribeMetric`: the control afterwards and the effects.  The
deferred `Emit` runs when the method returns, with the event built before the
`defer` statement. -/
def pluginControl.SubscribeMetric (p : pluginControl) (metric : List String) :
    pluginControl × List Effect :=
  let key := getMetricKey metric
  let (subs, count) := p.subscriptions.Subscribe key
  let e := Event.MetricSubscriptionEvent metric count
  ({ p with subscriptions := subs }, [Effect.Subscribe key, Effect.Emit e])

/-- A finished call of `UnsubscribeMetric`: the panic message if it panicked, the
control afterwards and the effects. -/
structure UnsubscribeResult where
  panic : Option String
  control : pluginControl
  trace : List Effect
  deriving DecidableEq, Repr

/-- The method `UnsubscribeMetric`.  A panic leaves before the `defer` statement is
reached, so nothing is emitted on that path. -/
def pluginControl.UnsubscribeMetric (underflow : String → GoError) (p : pluginControl)
    (metric : List String) : UnsubscribeResult :=
  let key := getMetricKey metric
  match p.subscriptions.Unsubscribe underflow key with
  | (subs, .error err) =>
    -- panic because if a metric falls below 0, something bad has happened
    { panic := some err.Error
      control := { p with subscriptions := subs }
      trace := [Effect.Unsubscribe key] }
  | (subs, .ok count) =>
    let e := Event.MetricUnsubscriptionEvent metric count
    { panic := none
      control := { p with subscriptions := subs }
      trace := [Effect.Unsubscribe key, Effect.Emit e] }

end control

/-! ## `publisher_proxy.go` -/

namespace plugin

open control (GoError)

/-- The struct `PublishArgs`, over the metric type of package `plugin`. -/
structure PublishArgs (PluginMetric : Type) where
  PluginMetrics : List PluginMetric

/-- The interface `PublisherPlugin`: the answer of the plugin to a `Publish` call. -/
structure PublisherPlugin (PluginMetric : Type) where
  Publish : List PluginMetric → Option GoError

/-- The struct `publisherPluginProxy`.  The session is an external object; the calls
on it are recorded in the trace. -/
structure publisherPluginProxy (PluginMetric : Type) where
  Plugin : PublisherPlugin PluginMetric

/-- What `Publish` does outside itself, in program order. -/
inductive ProxyEffect (PluginMetric : Type) where
  /-- The call `p.Session.Logger().Println(text)`. -/
  | LoggerPrintln (text : String)
  /-- The call `p.Session.ResetHeartbeat()`. -/
  | ResetHeartbeat
  /-- The call `p.Plugin.Publish(metrics)`. -/
  | PluginPublish (metrics : List PluginMetric)

/-- The method `publisherPluginProxy.Publish`: the error returned and the effects. -/
def publisherPluginProxy.Publish {PluginMetric : Type} (p : publisherPluginProxy PluginMetric)
    (args : PublishArgs PluginMetric) : Option GoError × List (ProxyEffect PluginMetric) :=
  let t := [ProxyEffect.LoggerPrintln "Publish called", ProxyEffect.ResetHeartbeat,
    ProxyEffect.PluginPublish args.PluginMetrics]
  match p.Plugin.Publish args.PluginMetrics with
  | some err => (some (GoError.errorsNew ("Publish call error: " ++ err.Error)), t)
  | none => (none, t)

/-- A proxy in front of a publisher that refuses every call with `disk full`. -/
def refusingProxy : publisherPluginProxy Nat :=
  { Plugin := { Publish := fun _ => some (GoError.foreign 3 "disk full") } }

end plugin

namespace control

/-! ## Scenarios of a handshake -/

/-- The launcher creates and starts the plugin for `path` without error, and the
wait for its response ends without error with the response `r`. -/
def Env.Responds (env : Env) (p : pluginControl) (path : String) (r : Response) : Prop :=
  (env.NewExecutablePlugin p path false).2 = none ∧
  env.Start (env.NewExecutablePlugin p path false).1 = none ∧
  env.WaitForResponse (env.NewExecutablePlugin p path false).1 (time_Second * 3) = (some r, none)

/-- Creating the plugin for `path`, starting it, or waiting for its response fails
with the error `e` (the first of the three steps that fails). -/
def Env.Fails (env : Env) (p : pluginControl) (path : String) (e : GoError) : Prop :=
  (env.NewExecutablePlugin p path false).2 = some e ∨
  ((env.NewExecutablePlugin p path false).2 = none ∧
    env.Start (env.NewExecutablePlugin p path false).1 = some e) ∨
  ((env.NewExecutablePlugin p path false).2 = none ∧
    env.Start (env.NewExecutablePlugin p path false).1 = none ∧
    (env.WaitForResponse (env.NewExecutablePlugin p path false).1 (time_Second * 3)).2 = some e)

/-- The states assigned to the record under construction, in order. -/
def statesOf : List Effect → List pluginState
  | [] => []
  | Effect.setState s :: rest => s :: statesOf rest
  | _ :: rest => statesOf rest

/-- Whether an effect is a call of `ePlugin.Start()`. -/
def Effect.isStart : Effect → Bool
  | .Start _ => true
  | _ => false

/-- Whether an effect is a call of `plugin.WaitForResponse`. -/
def Effect.isWait : Effect → Bool
  | .WaitForResponse _ _ => true
  | _ => false

/-- The value of the field `State` of the record under construction at the moment
the first effect satisfying `q` happens, `cur` being its value at the start of the
trace; `none` if no effect of the trace satisfies `q`. -/
def stateWhen (q : Effect → Bool) : List Effect → pluginState → Option pluginState
  | [], _ => none
  | Effect.setState s :: rest, cur => if q (Effect.setState s) then some cur else stateWhen q rest s
  | e :: rest, cur => if q e then some cur else stateWhen q rest cur

/-! ## Sample inputs -/

/-- A response reporting success, with a token. -/
def sampleResponse : Response :=
  { State := PluginResponseState.PluginSuccess
    ErrorMessage := ""
    Meta := { Name := "dummy", Version := 1, Capabilities := [] }
    Typ := PluginType.collector
    Token := "tok" }

/-- A launcher whose plugins all start and answer with the given response. -/
def respondingEnv (r : Response) : Env :=
  { NewExecutablePlugin := fun _ _ _ => (7, none)
    Start := fun _ => none
    WaitForResponse := fun _ _ => (some r, none)
    Now := 42 }

/-- A response reporting failure, with the message `boom`. -/
def failedResponse : Response :=
  { State := PluginResponseState.other 1
    ErrorMessage := "boom"
    Meta := { Name := "dummy", Version := 1, Capabilities := [] }
    Typ := PluginType.collector
    Token := "tok" }

/-- A response reporting success whose token is the empty string. -/
def tokenlessResponse : Response :=
  { State := PluginResponseState.PluginSuccess
    ErrorMessage := ""
    Meta := { Name := "dummy", Version := 1, Capabilities := [] }
    Typ := PluginType.collector
    Token := "" }

/-- A launcher whose plugins never answer in time. -/
def timeoutEnv : Env :=
  { NewExecutablePlugin := fun _ _ _ => (7, none)
    Start := fun _ => none
    WaitForResponse := fun _ _ => (none, some (GoError.foreign 1 "timeout waiting for response"))
    Now := 42 }

/-- The error the sample registry builds on underflow. -/
def sampleUnderflow (key : String) : GoError :=
  GoError.foreign 2 ("subscription count cannot be less than 0 for key " ++ key)

/-- A control in which the metric `cpu.load` has been subscribed once. -/
def subscribedControl : pluginControl :=
  (Control.Start.SubscribeMetric ["cpu", "load"]).1

/-! ## Helper lemmas on `Load` -/

theorem Load_stopped_eq (env : Env) (p : pluginControl) (path : String)
    (h : p.Started = false) :
    p.Load env path =
      { outcome := .returned none
          (some (.errorsNew "Must start plugin control before calling Load()"))
        control := p
        trace := [] } := by
  simp [pluginControl.Load, h]

theorem Load_responds_eq (env : Env) (p : pluginControl) (path : String) (r : Response)
    (hs : p.Started = true) (hr : env.Responds p path r) :
    p.Load env path =
      if r.State ≠ PluginResponseState.PluginSuccess then
        { outcome := .returned none
            (some (.errorsNew ("Plugin loading did not succeed: " ++ r.ErrorMessage ++ "\n")))
          control := p
          trace := [Effect.log ("Attempting to load: " ++ path ++ "\x0b"),
            Effect.setState DetectedState, Effect.NewExecutablePlugin path false,
            Effect.Start (env.NewExecutablePlugin p path false).1,
            Effect.WaitForResponse (env.NewExecutablePlugin p path false).1 (time_Second * 3),
            Effect.log ("Plugin loading did not succeed: " ++ r.ErrorMessage ++ "\n")] }
      else
        { outcome := .returned
            (some { Meta := r.Meta, Path := path, Typ := r.Typ, State := LoadedState,
                    Token := r.Token, LoadedTime := env.Now }) none
          control := { p with LoadedPlugins := p.LoadedPlugins ++
            [{ Meta := r.Meta, Path := path, Typ := r.Typ, State := LoadedState,
               Token := r.Token, LoadedTime := env.Now }] }
          trace := [Effect.log ("Attempting to load: " ++ path ++ "\x0b"),
            Effect.setState DetectedState, Effect.NewExecutablePlugin path false,
            Effect.Start (env.NewExecutablePlugin p path false).1,
            Effect.WaitForResponse (env.NewExecutablePlugin p path false).1 (time_Second * 3),
            Effect.setState LoadedState] } := by
  obtain ⟨h1, h2, h3⟩ := hr
  rcases hn : env.NewExecutablePlugin p path false with ⟨eP, e1⟩
  rw [hn] at h1 h2 h3
  simp only at h1 h2 h3
  subst h1
  simp [pluginControl.Load, hs, hn, h2, h3]

theorem Load_fails_eq (env : Env) (p : pluginControl) (path : String) (e : GoError)
    (hs : p.Started = true) (hf : env.Fails p path e) :
    (p.Load env path).outcome = .returned none (some e) ∧ (p.Load env path).control = p := by
  rcases hn : env.NewExecutablePlugin p path false with ⟨eP, e1⟩
  unfold Env.Fails at hf
  rw [hn] at hf
  simp only at hf
  rcases hf with h | ⟨h1, h2⟩ | ⟨h1, h2, h3⟩
  · subst h
    simp [pluginControl.Load, hs, hn]
  · subst h1
    simp [pluginControl.Load, hs, hn, h2]
  · subst h1
    rcases hw : env.WaitForResponse eP (time_Second * 3) with ⟨r, e3⟩
    rw [hw] at h3
    simp only at h3
    subst h3
    simp [pluginControl.Load, hs, hn, h2, hw]

/-! ## Admission: `Load` -/

/-- C1: on a control whose `Started` flag is false, `Load` returns a nil plugin and
the error "Must start plugin control before calling Load()" for every path and every
launcher, performs no effect at all (no plugin process is created or started) and
leaves the control, hence `LoadedPlugins`, unchanged; a control fresh from `Control()`
and a control stopped by `Stop` after `Start` both have the flag false. -/
theorem Load_not_started (env : Env) (p : pluginControl) (path : String)
    (h : p.Started = false) :
    (p.Load env path).outcome =
        .returned none (some (.errorsNew "Must start plugin control before calling Load()")) ∧
      (p.Load env path).trace = [] ∧
      (p.Load env path).control = p ∧
      (p.Load env path).control.LoadedPlugins = p.LoadedPlugins ∧
      Control.Started = false ∧
      ∀ q : pluginControl, q.Start.Stop.Started = false := by
  rw [Load_stopped_eq env p path h]
  exact ⟨rfl, rfl, rfl, rfl, rfl, fun _ => rfl⟩

theorem Load_not_started_witness :
    (Control.Start.Stop.Load timeoutEnv "").outcome =
        .returned none (some (.errorsNew "Must start plugin control before calling Load()")) ∧
      (Control.Start.Stop.Load timeoutEnv "").trace = [] ∧
      (Control.Start.Stop.Load timeoutEnv "").control = Control.Start.Stop ∧
      (Control.Start.Stop.Load timeoutEnv "").control.LoadedPlugins =
        Control.Start.Stop.LoadedPlugins ∧
      Control.Started = false ∧
      ∀ q : pluginControl, q.Start.Stop.Started = false :=
  Load_not_started timeoutEnv Control.Start.Stop "" rfl

/-- C2: on a started control, if creating the plugin, starting it or waiting for its
response fails with the error `e`, then `Load` returns a nil plugin with exactly `e`
and leaves the control, hence `LoadedPlugins`, unchanged; and for every control and
launcher, `LoadedPlugins` differs after `Load` only if `Load` returned a nil error. -/
theorem Load_failure_returns_underlying_error (env : Env) (p : pluginControl)
    (path : String) (e : GoError) (hs : p.Started = true) (hf : env.Fails p path e) :
    (p.Load env path).outcome = .returned none (some e) ∧
      (p.Load env path).control.LoadedPlugins = p.LoadedPlugins ∧
      ∀ (env2 : Env) (p2 : pluginControl) (path2 : String),
        (p2.Load env2 path2).control.LoadedPlugins ≠ p2.LoadedPlugins →
          ∃ lp, (p2.Load env2 path2).outcome = .returned (some lp) none := by
  obtain ⟨h1, h2⟩ := Load_fails_eq env p path e hs hf
  refine ⟨h1, by rw [h2], ?_⟩
  intro env2 p2 path2
  unfold pluginControl.Load
  repeat (first | split | simp)

theorem Load_failure_returns_underlying_error_witness :
    (Control.Start.Load timeoutEnv "/bin/plugin").outcome =
        .returned none (some (GoError.foreign 1 "timeout waiting for response")) ∧
      (Control.Start.Load timeoutEnv "/bin/plugin").control.LoadedPlugins =
        Control.Start.LoadedPlugins ∧
      ∀ (env2 : Env) (p2 : pluginControl) (path2 : String),
        (p2.Load env2 path2).control.LoadedPlugins ≠ p2.LoadedPlugins →
          ∃ lp, (p2.Load env2 path2).outcome = .returned (some lp) none :=
  Load_failure_returns_underlying_error timeoutEnv Control.Start "/bin/plugin"
    (GoError.foreign 1 "timeout waiting for response") rfl
    (Or.inr (Or.inr ⟨rfl, rfl, rfl⟩))

/-- C3 (amended): on a started control, when the handshake response `r` has a state
other than `PluginSuccess`, `Load` returns a nil plugin and the error whose message is
"Plugin loading did not succeed: ", then `r.ErrorMessage`, then a newline character;
the message of `r` occurs verbatim in it, and the control, hence `LoadedPlugins`, is
unchanged. -/
theorem Load_rejected_message (env : Env) (p : pluginControl) (path : String)
    (r : Response) (hs : p.Started = true) (hr : env.Responds p path r)
    (hne : r.State ≠ PluginResponseState.PluginSuccess) :
    (p.Load env path).outcome = .returned none
        (some (.errorsNew ("Plugin loading did not succeed: " ++ r.ErrorMessage ++ "\n"))) ∧
      r.ErrorMessage.data <:+:
        (GoError.errorsNew
          ("Plugin loading did not succeed: " ++ r.ErrorMessage ++ "\n")).Error.data ∧
      (p.Load env path).control = p ∧
      (p.Load env path).control.LoadedPlugins = p.LoadedPlugins := by
  rw [Load_responds_eq env p path r hs hr, if_pos hne]
  refine ⟨rfl, ?_, rfl, rfl⟩
  refine ⟨"Plugin loading did not succeed: ".data, "\n".data, ?_⟩
  simp [GoError.Error, String.data_append]

theorem Load_rejected_message_witness :
    (Control.Start.Load (respondingEnv failedResponse) "/bin/plugin").outcome =
        .returned none (some (.errorsNew
          ("Plugin loading did not succeed: " ++ failedResponse.ErrorMessage ++ "\n"))) ∧
      failedResponse.ErrorMessage.data <:+:
        (GoError.errorsNew
          ("Plugin loading did not succeed: " ++ failedResponse.ErrorMessage ++
            "\n")).Error.data ∧
      (Control.Start.Load (respondingEnv failedResponse) "/bin/plugin").control =
        Control.Start ∧
      (Control.Start.Load (respondingEnv failedResponse) "/bin/plugin").control.LoadedPlugins =
        Control.Start.LoadedPlugins :=
  Load_rejected_message (respondingEnv failedResponse) Control.Start "/bin/plugin"
    failedResponse rfl ⟨rfl, rfl, rfl⟩ (by decide)

/-- C3 (counterexample): for the response with state `other 1` and message `boom`,
the error returned by `Load` has the message "Plugin loading did not succeed: boom"
followed by a newline, which is not "Plugin loading did not succeed: " followed by
the message of the response. -/
theorem Load_rejected_message_counterexample :
    failedResponse.State ≠ PluginResponseState.PluginSuccess ∧
      (Control.Start.Load (respondingEnv failedResponse) "/bin/plugin").outcome =
        .returned none (some (.errorsNew "Plugin loading did not succeed: boom\n")) ∧
      (GoError.errorsNew "Plugin loading did not succeed: boom\n").Error ≠
        "Plugin loading did not succeed: " ++ failedResponse.ErrorMessage := by
  refine ⟨by decide, rfl, by decide⟩

/-- C4: on a started control, when the handshake response `r` has state
`PluginSuccess`, `Load` returns a nil error and the record with `Path = path`,
`Meta = r.Meta`, `Type = r.Type`, `Token = r.Token`, `State = LoadedState` (and the
load time read from the clock); afterwards `LoadedPlugins` is the previous list with
that record appended at the end: one longer, earlier entries unchanged, and nothing
else of the control changes. -/
theorem Load_success_appends (env : Env) (p : pluginControl) (path : String)
    (r : Response) (hs : p.Started = true) (hr : env.Responds p path r)
    (hok : r.State = PluginResponseState.PluginSuccess) :
    (p.Load env path).outcome = .returned
        (some { Meta := r.Meta, Path := path, Typ := r.Typ, State := LoadedState,
                Token := r.Token, LoadedTime := env.Now }) none ∧
      (p.Load env path).control.LoadedPlugins = p.LoadedPlugins ++
        [{ Meta := r.Meta, Path := path, Typ := r.Typ, State := LoadedState,
           Token := r.Token, LoadedTime := env.Now }] ∧
      (p.Load env path).control.LoadedPlugins.length = p.LoadedPlugins.length + 1 ∧
      (∀ i, i < p.LoadedPlugins.length →
        (p.Load env path).control.LoadedPlugins[i]? = p.LoadedPlugins[i]?) ∧
      (p.Load env path).control =
        { p with LoadedPlugins := (p.Load env path).control.LoadedPlugins } := by
  rw [Load_responds_eq env p path r hs hr, if_neg (by simp [hok])]
  refine ⟨rfl, rfl, by simp, ?_, rfl⟩
  intro i hi
  simp [List.getElem?_append_left hi]

theorem Load_success_appends_witness :
    (Control.Start.Load (respondingEnv sampleResponse) "/bin/plugin").outcome = .returned
        (some { Meta := sampleResponse.Meta, Path := "/bin/plugin", Typ := sampleResponse.Typ,
                State := LoadedState, Token := sampleResponse.Token,
                LoadedTime := (respondingEnv sampleResponse).Now }) none ∧
      (Control.Start.Load (respondingEnv sampleResponse) "/bin/plugin").control.LoadedPlugins =
        Control.Start.LoadedPlugins ++
        [{ Meta := sampleResponse.Meta, Path := "/bin/plugin", Typ := sampleResponse.Typ,
           State := LoadedState, Token := sampleResponse.Token,
           LoadedTime := (respondingEnv sampleResponse).Now }] ∧
      (Control.Start.Load (respondingEnv sampleResponse)
          "/bin/plugin").control.LoadedPlugins.length = Control.Start.LoadedPlugins.length + 1 ∧
      (∀ i, i < Control.Start.LoadedPlugins.length →
        (Control.Start.Load (respondingEnv sampleResponse)
            "/bin/plugin").control.LoadedPlugins[i]? =
          Control.Start.LoadedPlugins[i]?) ∧
      (Control.Start.Load (respondingEnv sampleResponse) "/bin/plugin").control =
        { Control.Start with LoadedPlugins :=
            (Control.Start.Load (respondingEnv sampleResponse)
              "/bin/plugin").control.LoadedPlugins } :=
  Load_success_appends (respondingEnv sampleResponse) Control.Start "/bin/plugin"
    sampleResponse rfl ⟨rfl, rfl, rfl⟩ rfl

/-- C5 (amended): on a started control, when the handshake response `r` has state
`PluginSuccess`, the record returned by `Load` has `State = LoadedState` and its
`Token` is the token of the response, whatever that is; so it is non-empty exactly
when the token of the response is non-empty. -/
theorem Load_success_state_and_token (env : Env) (p : pluginControl) (path : String)
    (r : Response) (hs : p.Started = true) (hr : env.Responds p path r)
    (hok : r.State = PluginResponseState.PluginSuccess) :
    ∃ lp, (p.Load env path).outcome = .returned (some lp) none ∧
      lp.State = LoadedState ∧ lp.Token = r.Token ∧ (lp.Token ≠ "" ↔ r.Token ≠ "") := by
  rw [Load_responds_eq env p path r hs hr, if_neg (by simp [hok])]
  exact ⟨_, rfl, rfl, rfl, Iff.rfl⟩

theorem Load_success_state_and_token_witness :
    ∃ lp, (Control.Start.Load (respondingEnv sampleResponse) "/bin/plugin").outcome =
        .returned (some lp) none ∧
      lp.State = LoadedState ∧ lp.Token = sampleResponse.Token ∧
      (lp.Token ≠ "" ↔ sampleResponse.Token ≠ "") :=
  Load_success_state_and_token (respondingEnv sampleResponse) Control.Start "/bin/plugin"
    sampleResponse rfl ⟨rfl, rfl, rfl⟩ rfl

/-- C5 (counterexample): a plugin that answers in time with state `PluginSuccess`
and an empty token is loaded, and the record returned by `Load` has `State =
LoadedState` and the empty string as its `Token`. -/
theorem Load_success_empty_token_counterexample :
    Control.Start.Started = true ∧
      (respondingEnv tokenlessResponse).Responds Control.Start "/bin/plugin"
        tokenlessResponse ∧
      tokenlessResponse.State = PluginResponseState.PluginSuccess ∧
      (Control.Start.Load (respondingEnv tokenlessResponse) "/bin/plugin").outcome =
        .returned (some { Meta := tokenlessResponse.Meta, Path := "/bin/plugin",
                          Typ := PluginType.collector, State := LoadedState,
                          Token := "", LoadedTime := 42 }) none :=
  ⟨rfl, ⟨rfl, rfl, rfl⟩, rfl, rfl⟩

/-- C9 (amended): during every `Load` on a started control the record is put in
`DetectedState` before the plugin process is created, its `State` is still
`DetectedState` when the process is started and when the response is awaited, it is
never set to `LoadingState`, and it is set to `LoadedState` exactly when the handshake
ended with a response of state `PluginSuccess`, as the last step and after the wait;
a record returned by `Load` is in `LoadedState`. -/
theorem Load_state_sequence (env : Env) (p : pluginControl) (path : String)
    (hs : p.Started = true) :
    Effect.setState LoadingState ∉ (p.Load env path).trace ∧
      (statesOf (p.Load env path).trace = [DetectedState] ∨
        statesOf (p.Load env path).trace = [DetectedState, LoadedState]) ∧
      stateWhen (fun e => e == Effect.NewExecutablePlugin path false) (p.Load env path).trace
        LoadedPlugin.new.State = some DetectedState ∧
      (∀ s, stateWhen Effect.isStart (p.Load env path).trace LoadedPlugin.new.State = some s →
        s = DetectedState) ∧
      (∀ s, stateWhen Effect.isWait (p.Load env path).trace LoadedPlugin.new.State = some s →
        s = DetectedState) ∧
      (statesOf (p.Load env path).trace = [DetectedState, LoadedState] ↔
        ∃ r, env.Responds p path r ∧ r.State = PluginResponseState.PluginSuccess) ∧
      (Effect.setState LoadedState ∈ (p.Load env path).trace →
        ∃ pre ePlugin, (p.Load env path).trace = pre ++ [Effect.setState LoadedState] ∧
          Effect.WaitForResponse ePlugin (time_Second * 3) ∈ pre) ∧
      (∀ lp err, (p.Load env path).outcome = .returned (some lp) err →
        lp.State = LoadedState ∧
          statesOf (p.Load env path).trace = [DetectedState, LoadedState]) := by
  rcases hn : env.NewExecutablePlugin p path false with ⟨eP, e1⟩
  cases e1 with
  | some e1 =>
    simp [pluginControl.Load, hs, hn, statesOf, stateWhen, Env.Responds, LoadingState,
      DetectedState, LoadedState, Effect.isStart, Effect.isWait]
  | none =>
    cases h2 : env.Start eP with
    | some e2 =>
      simp [pluginControl.Load, hs, hn, h2, statesOf, stateWhen, Env.Responds, LoadingState,
        DetectedState, LoadedState, Effect.isStart, Effect.isWait]
    | none =>
      rcases hw : env.WaitForResponse eP (time_Second * 3) with ⟨r, e3⟩
      cases e3 with
      | some e3 =>
        simp [pluginControl.Load, hs, hn, h2, hw, statesOf, stateWhen, Env.Responds,
          LoadingState, DetectedState, LoadedState, Effect.isStart, Effect.isWait]
      | none =>
        cases r with
        | none =>
          simp [pluginControl.Load, hs, hn, h2, hw, statesOf, stateWhen, Env.Responds,
            LoadingState, DetectedState, LoadedState, Effect.isStart, Effect.isWait]
        | some r =>
          by_cases hok : r.State = PluginResponseState.PluginSuccess
          · simp [pluginControl.Load, hs, hn, h2, hw, hok, statesOf, stateWhen, Env.Responds,
              LoadingState, DetectedState, LoadedState, Effect.isStart, Effect.isWait]
            refine ⟨[Effect.log ("Attempting to load: " ++ path ++ "\x0b"),
              Effect.setState "detected", Effect.NewExecutablePlugin path false,
              Effect.Start eP, Effect.WaitForResponse eP (time_Second * 3)], by simp, eP, by simp⟩
          · simp [pluginControl.Load, hs, hn, h2, hw, hok, statesOf, stateWhen, Env.Responds,
              LoadingState, DetectedState, LoadedState, Effect.isStart, Effect.isWait]

theorem Load_state_sequence_witness :
    Effect.setState LoadingState ∉
        (Control.Start.Load (respondingEnv sampleResponse) "/bin/plugin").trace ∧
      statesOf (Control.Start.Load (respondingEnv sampleResponse) "/bin/plugin").trace =
        [DetectedState, LoadedState] :=
  ⟨(Load_state_sequence (respondingEnv sampleResponse) Control.Start "/bin/plugin" rfl).1,
    (Load_state_sequence (respondingEnv sampleResponse) Control.Start "/bin/plugin"
      rfl).2.2.2.2.2.1.mpr ⟨sampleResponse, ⟨rfl, rfl, rfl⟩, rfl⟩⟩

/-- C9 (counterexample): in a successful `Load` the only assignments to `State` are
`DetectedState` and then `LoadedState`; when the process is started and when the
response is awaited the record is in `DetectedState`, which is not `LoadingState`. -/
theorem Load_skips_LoadingState_counterexample :
    (Control.Start.Load (respondingEnv sampleResponse) "/bin/plugin").trace =
        [Effect.log "Attempting to load: /bin/plugin\x0b", Effect.setState DetectedState,
          Effect.NewExecutablePlugin "/bin/plugin" false, Effect.Start 7,
          Effect.WaitForResponse 7 3000000000, Effect.setState LoadedState] ∧
      stateWhen Effect.isStart
        (Control.Start.Load (respondingEnv sampleResponse) "/bin/plugin").trace
        LoadedPlugin.new.State = some DetectedState ∧
      stateWhen Effect.isWait
        (Control.Start.Load (respondingEnv sampleResponse) "/bin/plugin").trace
        LoadedPlugin.new.State = some DetectedState ∧
      DetectedState ≠ LoadingState ∧
      Effect.setState LoadingState ∉
        (Control.Start.Load (respondingEnv sampleResponse) "/bin/plugin").trace := by
  refine ⟨by decide, by decide, by decide, by decide, by decide⟩

/-! ## Subscriptions -/

theorem count_cons (t : List (String × Int)) (k key : String) (v : Int) :
    subscriptions.count { table := (k, v) :: t } key =
      if key = k then some v else subscriptions.count { table := t } key := by
  simp only [subscriptions.count, List.lookup_cons]
  by_cases h : key = k
  · simp [h]
  · have hb : (key == k) = false := by simpa using h
    simp [h, hb]

theorem Subscribe_result (s : subscriptions) (key : String) :
    (s.Subscribe key).2 = (s.count key).getD 0 + 1 ∧
      (s.Subscribe key).1.count key = some (s.Subscribe key).2 ∧
      ∀ other, other ≠ key → (s.Subscribe key).1.count other = s.count other := by
  unfold subscriptions.Subscribe
  cases h : s.count key with
  | none =>
    refine ⟨by simp, by simp [count_cons], ?_⟩
    intro other ho
    simp [count_cons, ho]
  | some c =>
    refine ⟨by simp, by simp [count_cons], ?_⟩
    intro other ho
    simp [count_cons, ho]

theorem Subscribe_valid (s : subscriptions) (key : String) (hv : s.Valid) :
    (s.Subscribe key).1.Valid := by
  intro k c hc
  obtain ⟨h1, h2, h3⟩ := Subscribe_result s key
  by_cases hk : k = key
  · subst hk
    rw [h2] at hc
    have hc2 : (s.Subscribe k).2 = c := by simpa using hc
    rw [← hc2, h1]
    cases h : s.count k with
    | none => simp
    | some c0 =>
      have := hv k c0 h
      simp
      omega
  · rw [h3 k hk] at hc
    exact hv k c hc

theorem Init_valid : subscriptions.Init.Valid := by
  intro k c hc
  simp [subscriptions.Init, subscriptions.count] at hc

theorem Unsubscribe_absent (underflow : String → GoError) (s : subscriptions) (key : String)
    (h : s.count key = none ∨ s.count key = some 0) :
    s.Unsubscribe underflow key = (s, .error (underflow key)) := by
  unfold subscriptions.Unsubscribe
  rcases h with h | h <;> simp [h]

theorem Unsubscribe_present (underflow : String → GoError) (s : subscriptions) (key : String)
    (c : Int) (h : s.count key = some c) (hc : c ≠ 0) :
    s.Unsubscribe underflow key = ({ table := (key, c - 1) :: s.table }, .ok (c - 1)) := by
  unfold subscriptions.Unsubscribe
  simp [h, hc]

theorem count_cases (s : subscriptions) (key : String) :
    (s.count key = none ∨ s.count key = some 0) ∨ ∃ c, s.count key = some c ∧ c ≠ 0 := by
  cases h : s.count key with
  | none => simp
  | some c =>
    by_cases hc : c = 0
    · simp [hc]
    · exact Or.inr ⟨c, rfl, hc⟩

/-- C6: `SubscribeMetric(ns)` calls `Subscribe` of the registry once, with the key
obtained by joining `ns` with ".", then emits one `MetricSubscriptionEvent` whose
namespace is `ns` and whose count is the count returned by that call, which is the
previous count of the key (0 if absent) plus one and is the count stored for the key
afterwards; nothing else is done and nothing else of the control changes. -/
theorem SubscribeMetric_emits_new_count (p : pluginControl) (ns : List String) :
    getMetricKey ns = strings_Join ns "." ∧
      (p.SubscribeMetric ns).2 =
        [Effect.Subscribe (strings_Join ns "."),
          Effect.Emit (Event.MetricSubscriptionEvent ns
            (p.subscriptions.Subscribe (strings_Join ns ".")).2)] ∧
      (p.subscriptions.Subscribe (strings_Join ns ".")).2 =
        (p.subscriptions.count (strings_Join ns ".")).getD 0 + 1 ∧
      (p.SubscribeMetric ns).1 =
        { p with subscriptions := (p.subscriptions.Subscribe (strings_Join ns ".")).1 } ∧
      (p.SubscribeMetric ns).1.subscriptions.count (strings_Join ns ".") =
        some (p.subscriptions.Subscribe (strings_Join ns ".")).2 := by
  obtain ⟨h1, h2, _⟩ := Subscribe_result p.subscriptions (strings_Join ns ".")
  exact ⟨rfl, rfl, h1, rfl, h2⟩

/-- C7: with a registry whose counts are non-negative, `UnsubscribeMetric(ns)` panics
and emits no event if and only if `Unsubscribe` of the registry reports an error for
the dot-joined key, which happens if and only if the key is absent or at count 0, and
the panic carries the message of that error; otherwise it emits exactly one
`MetricUnsubscriptionEvent` carrying `ns` and the count after the decrement, which is
stored for the key.  No emitted event carries a negative count and the counts of the
registry stay non-negative. -/
theorem UnsubscribeMetric_panics_iff_underflow (underflow : String → GoError)
    (p : pluginControl) (ns : List String) (hv : p.subscriptions.Valid) :
    getMetricKey ns = strings_Join ns "." ∧
      ((((p.UnsubscribeMetric underflow ns).panic ≠ none ∧
          ∀ e, Effect.Emit e ∉ (p.UnsubscribeMetric underflow ns).trace) ↔
        ∃ err, (p.subscriptions.Unsubscribe underflow (getMetricKey ns)).2 = .error err)) ∧
      ((∃ err, (p.subscriptions.Unsubscribe underflow (getMetricKey ns)).2 = .error err) ↔
        (p.subscriptions.count (getMetricKey ns) = none ∨
          p.subscriptions.count (getMetricKey ns) = some 0)) ∧
      (∀ err, (p.subscriptions.Unsubscribe underflow (getMetricKey ns)).2 = .error err →
        (p.UnsubscribeMetric underflow ns).panic = some err.Error ∧
          (p.UnsubscribeMetric underflow ns).control = p) ∧
      (∀ c, p.subscriptions.count (getMetricKey ns) = some c → c ≠ 0 →
        (p.UnsubscribeMetric underflow ns).panic = none ∧
          (p.UnsubscribeMetric underflow ns).trace =
            [Effect.Unsubscribe (getMetricKey ns),
              Effect.Emit (Event.MetricUnsubscriptionEvent ns (c - 1))] ∧
          (p.UnsubscribeMetric underflow ns).control.subscriptions.count (getMetricKey ns) =
            some (c - 1) ∧
          0 ≤ c - 1) ∧
      (∀ m c, Effect.Emit (Event.MetricUnsubscriptionEvent m c) ∈
          (p.UnsubscribeMetric underflow ns).trace → m = ns ∧ 0 ≤ c) ∧
      (p.UnsubscribeMetric underflow ns).control.subscriptions.Valid := by
  refine ⟨rfl, ?_⟩
  rcases count_cases p.subscriptions (getMetricKey ns) with h | ⟨c, h, hc⟩
  · have hu := Unsubscribe_absent underflow p.subscriptions (getMetricKey ns) h
    have hr : p.UnsubscribeMetric underflow ns =
        { panic := some (underflow (getMetricKey ns)).Error, control := p,
          trace := [Effect.Unsubscribe (getMetricKey ns)] } := by
      simp [pluginControl.UnsubscribeMetric, hu]
    rw [hr, hu]
    refine ⟨by simp, by simp [h], by simp, ?_, by simp, hv⟩
    intro c hc hne
    rcases h with h | h
    · rw [h] at hc
      cases hc
    · rw [h] at hc
      exact absurd (Option.some.inj hc).symm hne
  · have hu := Unsubscribe_present underflow p.subscriptions (getMetricKey ns) c h hc
    have hpos : 0 ≤ c - 1 := by
      have := hv _ c h
      omega
    have hr : p.UnsubscribeMetric underflow ns =
        { panic := none,
          control := { p with subscriptions :=
            { table := (getMetricKey ns, c - 1) :: p.subscriptions.table } },
          trace := [Effect.Unsubscribe (getMetricKey ns),
            Effect.Emit (Event.MetricUnsubscriptionEvent ns (c - 1))] } := by
      simp [pluginControl.UnsubscribeMetric, hu]
    rw [hr, hu]
    refine ⟨by simp, by simp [h, hc], by simp, ?_, ?_, ?_⟩
    · intro c2 hc2 _
      rw [h] at hc2
      have hcc : c = c2 := Option.some.inj hc2
      subst hcc
      exact ⟨rfl, rfl, by simp [count_cons], hpos⟩
    · intro m c2 hm
      simp at hm
      obtain ⟨hm1, hm2⟩ := hm
      subst hm1 hm2
      exact ⟨rfl, hpos⟩
    · intro k c2 hk
      simp only [count_cons] at hk
      by_cases hkk : k = getMetricKey ns
      · simp [hkk] at hk
        omega
      · simp [hkk] at hk
        exact hv k c2 hk

theorem UnsubscribeMetric_panics_iff_underflow_witness :
    ((subscribedControl.UnsubscribeMetric sampleUnderflow ["cpu", "load"]).panic = none ∧
        (subscribedControl.UnsubscribeMetric sampleUnderflow ["cpu", "load"]).trace =
          [Effect.Unsubscribe (getMetricKey ["cpu", "load"]),
            Effect.Emit (Event.MetricUnsubscriptionEvent ["cpu", "load"] (1 - 1))] ∧
        (subscribedControl.UnsubscribeMetric sampleUnderflow
          ["cpu", "load"]).control.subscriptions.count (getMetricKey ["cpu", "load"]) =
            some (1 - 1) ∧
        (0 : Int) ≤ 1 - 1) ∧
      ((Control.Start.UnsubscribeMetric sampleUnderflow ["cpu", "load"]).panic =
          some (sampleUnderflow "cpu.load").Error ∧
        (Control.Start.UnsubscribeMetric sampleUnderflow ["cpu", "load"]).control =
          Control.Start) :=
  ⟨(UnsubscribeMetric_panics_iff_underflow sampleUnderflow subscribedControl ["cpu", "load"]
      (Subscribe_valid _ _ Init_valid)).2.2.2.2.1 1 (by decide) (by decide),
    (UnsubscribeMetric_panics_iff_underflow sampleUnderflow Control.Start ["cpu", "load"]
      Init_valid).2.2.2.1 (sampleUnderflow "cpu.load") rfl⟩

/-! ## Metric keys -/

theorem dot_split (x : List Char) :
    ∀ (y s t : List Char), '.' ∉ x → '.' ∉ y → x ++ '.' :: s = y ++ '.' :: t →
      x = y ∧ s = t := by
  induction x with
  | nil =>
    intro y s t _ hy h
    cases y with
    | nil => simpa using h
    | cons c y =>
      simp at h
      simp [← h.1] at hy
  | cons a x ih =>
    intro y s t hx hy h
    cases y with
    | nil =>
      simp at h
      simp [h.1] at hx
    | cons c y =>
      simp at h hx hy
      obtain ⟨h1, h2⟩ := ih y s t hx.2 hy.2 h.2
      exact ⟨by rw [h.1, h1], h2⟩

theorem strings_Join_cons_cons (a b : String) (rest : List String) (sep : String) :
    strings_Join (a :: b :: rest) sep = a ++ sep ++ strings_Join (b :: rest) sep := by
  simp [strings_Join]

theorem strings_Join_dot_injective (a : List String) :
    ∀ b : List String, a ≠ [] → b ≠ [] →
      (∀ s ∈ a, '.' ∉ s.data) → (∀ s ∈ b, '.' ∉ s.data) →
      strings_Join a "." = strings_Join b "." → a = b := by
  induction a with
  | nil => intro b ha; exact absurd rfl ha
  | cons x ra ih =>
    intro b _ hb hda hdb h
    cases b with
    | nil => exact absurd rfl hb
    | cons y rb =>
      have hx : '.' ∉ x.data := hda x (by simp)
      have hy : '.' ∉ y.data := hdb y (by simp)
      cases ra with
      | nil =>
        cases rb with
        | nil =>
          simp [strings_Join] at h
          rw [h]
        | cons y2 rb =>
          rw [strings_Join_cons_cons] at h
          simp only [strings_Join] at h
          have hd := congrArg String.data h
          simp only [String.data_append] at hd
          rw [hd] at hx
          exact absurd (by simp [show ".".data = ['.'] from rfl]) hx
      | cons x2 ra =>
        cases rb with
        | nil =>
          rw [strings_Join_cons_cons] at h
          simp only [strings_Join] at h
          have hd := congrArg String.data h
          simp only [String.data_append] at hd
          rw [← hd] at hy
          exact absurd (by simp [show ".".data = ['.'] from rfl]) hy
        | cons y2 rb =>
          rw [strings_Join_cons_cons, strings_Join_cons_cons] at h
          have hd := congrArg String.data h
          simp only [String.data_append, show ".".data = ['.'] from rfl,
            List.append_assoc, List.singleton_append] at hd
          obtain ⟨h1, h2⟩ := dot_split _ _ _ _ hx hy hd
          have hxy : x = y := String.ext h1
          have hrest := ih (y2 :: rb) (by simp) (by simp)
            (fun s hs => hda s (by simp [List.mem_cons] at hs ⊢; tauto))
            (fun s hs => hdb s (by simp [List.mem_cons] at hs ⊢; tauto))
            (String.ext h2)
          rw [hxy, hrest]

/-- C10: `getMetricKey` is injective on non-empty namespaces whose segments contain
no "." character: two such namespaces have the same key if and only if they are the
same namespace, so distinct ones have distinct keys; and the namespace `cpu`, `load`
has the key "cpu.load". -/
theorem getMetricKey_injective (a b : List String) (ha : a ≠ []) (hb : b ≠ [])
    (hda : ∀ s ∈ a, '.' ∉ s.data) (hdb : ∀ s ∈ b, '.' ∉ s.data) :
    (getMetricKey a = getMetricKey b → a = b) ∧
      (a ≠ b → getMetricKey a ≠ getMetricKey b) ∧
      getMetricKey ["cpu", "load"] = "cpu.load" := by
  have key : getMetricKey a = getMetricKey b → a = b :=
    strings_Join_dot_injective a b ha hb hda hdb
  exact ⟨key, fun hne h => hne (key h), by decide⟩

theorem getMetricKey_injective_witness :
    (getMetricKey ["cpu", "load"] = getMetricKey ["cpu", "idle"] →
        ["cpu", "load"] = ["cpu", "idle"]) ∧
      (["cpu", "load"] ≠ ["cpu", "idle"] →
        getMetricKey ["cpu", "load"] ≠ getMetricKey ["cpu", "idle"]) ∧
      getMetricKey ["cpu", "load"] = "cpu.load" :=
  getMetricKey_injective ["cpu", "load"] ["cpu", "idle"] (by decide) (by decide)
    (by decide) (by decide)

end control

/-! ## The publisher proxy -/

namespace plugin

open control (GoError)

theorem wrapped_ne (pfx : String) (e : GoError) (hp : 0 < pfx.length) :
    GoError.errorsNew (pfx ++ e.Error) ≠ e := by
  intro h
  cases e with
  | errorsNew m =>
    have hm : pfx ++ m = m := by simpa [GoError.Error] using h
    have hl := congrArg String.length hm
    simp [String.length_append] at hl
    omega
  | foreign tag m => cases h

/-- C8: `Publish` of the proxy logs the call, resets the heartbeat and calls `Publish`
of the plugin once, with `args.PluginMetrics`; it returns nil if and only if the
plugin returned nil, and when the plugin returns the error `e` it returns the error
built by `errors.New` whose message is "Publish call error: " followed by the message
of `e`, a value different from `e`. -/
theorem Publish_wraps_error {PluginMetric : Type} (p : publisherPluginProxy PluginMetric)
    (args : PublishArgs PluginMetric) :
    (p.Publish args).2 =
        [ProxyEffect.LoggerPrintln "Publish called", ProxyEffect.ResetHeartbeat,
          ProxyEffect.PluginPublish args.PluginMetrics] ∧
      ((p.Publish args).1 = none ↔ p.Plugin.Publish args.PluginMetrics = none) ∧
      ∀ e, p.Plugin.Publish args.PluginMetrics = some e →
        (p.Publish args).1 = some (GoError.errorsNew ("Publish call error: " ++ e.Error)) ∧
          (GoError.errorsNew ("Publish call error: " ++ e.Error)).Error =
            "Publish call error: " ++ e.Error ∧
          GoError.errorsNew ("Publish call error: " ++ e.Error) ≠ e := by
  unfold publisherPluginProxy.Publish
  cases h : p.Plugin.Publish args.PluginMetrics with
  | none => simp
  | some e0 =>
    refine ⟨rfl, by simp, ?_⟩
    intro e he
    cases he
    exact ⟨rfl, rfl, wrapped_ne _ _ (by decide)⟩

theorem Publish_wraps_error_witness :
    (refusingProxy.Publish { PluginMetrics := [1, 2] }).1 =
        some (GoError.errorsNew
          ("Publish call error: " ++ (GoError.foreign 3 "disk full").Error)) ∧
      (GoError.errorsNew ("Publish call error: " ++ (GoError.foreign 3 "disk full").Error)).Error =
        "Publish call error: " ++ (GoError.foreign 3 "disk full").Error ∧
      GoError.errorsNew ("Publish call error: " ++ (GoError.foreign 3 "disk full").Error) ≠
        GoError.foreign 3 "disk full" :=
  (Publish_wraps_error refusingProxy { PluginMetrics := [1, 2] }).2.2
    (GoError.foreign 3 "disk full") rfl

end plugin
